import Mathlib

/-!
Verification of the MTB-DAQ firmware (MicropythonCode/: main.py,
helperFunctions.py, files_converted_to_mpy/ADXL375_driver.py) against its
natural-language specification.  Pure helpers of the source are embedded as
Lean functions on Nat / Int / ℚ; register bytes are Nat values below 256;
the stateful acquisition loop is embedded as explicit state passing.
-/

/-- Embeds `twos_comp(val, bits)` of helperFunctions.py (identical copy in
ADXL375_driver.py): if the sign bit `1 << (bits - 1)` is set in `val`, return
`val - (1 << bits)`, otherwise `val` unchanged.  The Python `int` is modelled
by `Int`; the input `val` is a register-sourced bit pattern, hence `Nat`. -/
def twos_comp (val : Nat) (bits : Nat) : Int :=
  if val &&& (1 <<< (bits - 1)) ≠ 0 then
    (val : Int) - ((1 <<< bits : Nat) : Int)
  else
    (val : Int)

/-- Modelled from the spec: the reference two's-complement encoding of §3
("signed-integer encoding where the high bit indicates sign"); an integer in
[-2^15, 2^15) is encoded into a 16-bit pattern by adding `2^16` when it is
negative.  This definition follows the spec's words (the source has no
encoder) and exists only to be compared with `twos_comp`. -/
def encode16 (x : Int) : Nat :=
  (if x < 0 then x + 65536 else x).toNat

/-- The sign-bit test of `twos_comp` at width 16 is exactly "the value is at
least 2^15", for any 16-bit pattern. -/
lemma and_bit15_ne (v : Nat) (h : v < 65536) : (v &&& 32768 ≠ 0) ↔ 32768 ≤ v := by
  have h1 : v &&& 2 ^ 15 = (v.testBit 15).toNat * 2 ^ 15 := Nat.and_two_pow v 15
  norm_num at h1
  rw [h1, Nat.testBit_to_div_mod]
  norm_num
  by_cases hd : v / 32768 % 2 = 1 <;> simp [hd] <;> omega

/-- C1: for every 16-bit pattern v, `twos_comp v 16` returns v unchanged when
bit 15 is clear and v - 2^16 when bit 15 is set; consequently decoding inverts
the reference two's-complement encoding on [-32768, 32767]. -/
theorem twos_comp_roundtrip (v : Nat) (hv : v ≤ 0xFFFF)
    (x : Int) (hx1 : -32768 ≤ x) (hx2 : x ≤ 32767) :
    twos_comp v 16 = (if v < 32768 then (v : Int) else (v : Int) - 65536) ∧
    twos_comp (encode16 x) 16 = x := by
  have hs15 : (1 <<< 15 : Nat) = 32768 := by decide
  have hs16 : (1 <<< 16 : Nat) = 65536 := by decide
  constructor
  · rw [twos_comp]
    simp only [hs15, hs16]
    have hb := and_bit15_ne v (by omega)
    by_cases hge : 32768 ≤ v
    · rw [if_pos (hb.mpr hge), if_neg (by omega)]
      push_cast
      ring
    · rw [if_neg (by rw [hb]; omega), if_pos (by omega)]
  · rw [twos_comp, encode16]
    simp only [hs15, hs16]
    by_cases hneg : x < 0
    · rw [if_pos hneg]
      have hv' : (x + 65536).toNat < 65536 := by omega
      have hge : 32768 ≤ (x + 65536).toNat := by omega
      rw [if_pos ((and_bit15_ne _ hv').mpr hge)]
      push_cast
      omega
    · rw [if_neg hneg]
      have hv' : x.toNat < 65536 := by omega
      have hlt : ¬ 32768 ≤ x.toNat := by omega
      rw [if_neg (by rw [and_bit15_ne _ hv']; exact hlt)]
      omega

/-- Closed witness for C1 at v = 0xFFFF and x = -1. -/
theorem twos_comp_roundtrip_witness :
    (0xFFFF ≤ 0xFFFF) ∧ (-32768 ≤ (-1 : Int)) ∧ ((-1 : Int) ≤ 32767) ∧
    (twos_comp 0xFFFF 16 =
        (if (0xFFFF : Nat) < 32768 then ((0xFFFF : Nat) : Int)
         else ((0xFFFF : Nat) : Int) - 65536) ∧
      twos_comp (encode16 (-1)) 16 = -1) :=
  ⟨by decide, by decide, by decide,
    twos_comp_roundtrip 0xFFFF (by decide) (-1) (by decide) (by decide)⟩

/-- Embeds the class constant `SCALE_FACTOR = 0.0488` of ADXL375_driver.py
([g/LSB]); floats are modelled as exact rationals. -/
def SCALE_FACTOR : ℚ := 0.0488

/-- Embeds the sample-to-engineering-units conversion
`twos_comp(raw, 16) * SCALE_FACTOR` shared by decode_data
(helperFunctions.py) and the axis getters of ADXL375_driver.py. -/
def decode_sample (raw : Nat) : ℚ :=
  (twos_comp raw 16 : ℚ) * SCALE_FACTOR

/-- Embeds the word assembly and conversion of `get_x_acceleration` /
`get_y_acceleration` / `get_z_acceleration` (ADXL375_driver.py) and of the
per-axis computation of `decode_data` (helperFunctions.py): the low byte and
the high byte of a data register pair combine as `(MSB << 8) + LSB` and the
word converts through `twos_comp` times `SCALE_FACTOR`. -/
def axis_accel (lsb msb : Nat) : ℚ :=
  decode_sample ((msb <<< 8) + lsb)

/-- C2: the conversion maps raw word 0x0000 to 0.0, 0x0001 to 0.0488 and
0xFFFF to -0.0488, both as `decode_sample` on the assembled word and through
the byte-level `axis_accel` used by the axis getters. -/
theorem decode_sample_values :
    decode_sample 0x0000 = 0 ∧
    decode_sample 0x0001 = 0.0488 ∧
    decode_sample 0xFFFF = -0.0488 ∧
    axis_accel 0x00 0x00 = 0 ∧
    axis_accel 0x01 0x00 = 0.0488 ∧
    axis_accel 0xFF 0xFF = -0.0488 := by
  have h0 : twos_comp 0x0000 16 = 0 := by decide
  have h1 : twos_comp 0x0001 16 = 1 := by decide
  have hf : twos_comp 0xFFFF 16 = -1 := by decide
  have e1 : ((0x00 : Nat) <<< 8) + 0x00 = 0x0000 := by decide
  have e2 : ((0x00 : Nat) <<< 8) + 0x01 = 0x0001 := by decide
  have e3 : ((0xFF : Nat) <<< 8) + 0xFF = 0xFFFF := by decide
  simp only [axis_accel, e1, e2, e3, decode_sample, h0, h1, hf, SCALE_FACTOR]
  norm_num

/-- Embeds the `ODR_VALUES` table of `get_ODR` (helperFunctions.py): pairs of
output data rate in Hz and 4-bit rate code, in source order. -/
def ODR_VALUES : List (ℚ × Nat) :=
  [ (3200, 0b1111),
    (1600, 0b1110),
    (800, 0b1101),
    (400, 0b1100),
    (200, 0b1011),
    (100, 0b1010),
    (50, 0b1001),
    (25, 0b1000),
    (12.5, 0b0111),
    (6.25, 0b0110),
    (3.13, 0b0101),
    (1.56, 0b0100),
    (0.78, 0b0011),
    (0.39, 0b0010),
    (0.20, 0b0001),
    (0.10, 0b0000) ]

/-- Embeds the lookup loop of `get_ODR`: scan `ODR_VALUES` in order, return
the frequency of the first entry whose code matches, else the not-found
indicator (the source returns `False`, modelled as `none`). -/
def lookupODR (code : Nat) : Option ℚ :=
  (ODR_VALUES.find? (fun value => code == value.2)).map (fun value => value.1)

/-- Embeds `get_ODR(adxl375)` (helperFunctions.py) as a function of the
BW_RATE register byte: the byte is masked to its lowest 4 bits
(`& 0b00001111`) before the table search. -/
def get_ODR (bw_rate : Nat) : Option ℚ :=
  lookupODR (bw_rate &&& 0b00001111)

/-- C6: the lookup returns the exact documented frequency on each of the 16
documented 4-bit rate codes, returns the not-found indicator (not a crash) on
any code outside the table, and `get_ODR` masks the BW_RATE byte to its
lowest 4 bits before the search. -/
theorem get_ODR_table (b c : Nat) (hc : 15 < c) :
    lookupODR 0b1111 = some 3200 ∧
    lookupODR 0b1110 = some 1600 ∧
    lookupODR 0b1101 = some 800 ∧
    lookupODR 0b1100 = some 400 ∧
    lookupODR 0b1011 = some 200 ∧
    lookupODR 0b1010 = some 100 ∧
    lookupODR 0b1001 = some 50 ∧
    lookupODR 0b1000 = some 25 ∧
    lookupODR 0b0111 = some 12.5 ∧
    lookupODR 0b0110 = some 6.25 ∧
    lookupODR 0b0101 = some 3.13 ∧
    lookupODR 0b0100 = some 1.56 ∧
    lookupODR 0b0011 = some 0.78 ∧
    lookupODR 0b0010 = some 0.39 ∧
    lookupODR 0b0001 = some 0.20 ∧
    lookupODR 0b0000 = some 0.10 ∧
    lookupODR c = none ∧
    get_ODR b = lookupODR (b &&& 0b00001111) := by
  refine ⟨rfl, rfl, rfl, rfl, rfl, rfl, rfl, rfl, rfl, rfl, rfl, rfl,
    rfl, rfl, rfl, rfl, ?_, rfl⟩
  rw [lookupODR, Option.map_eq_none', List.find?_eq_none]
  intro x hx
  simp only [ODR_VALUES] at hx
  fin_cases hx <;> simp <;> omega

/-- Closed witness for C6 at BW_RATE byte 0b10101110 and out-of-table code 16. -/
theorem get_ODR_table_witness :
    (15 < 16) ∧
    (lookupODR 0b1111 = some 3200 ∧
      lookupODR 0b1110 = some 1600 ∧
      lookupODR 0b1101 = some 800 ∧
      lookupODR 0b1100 = some 400 ∧
      lookupODR 0b1011 = some 200 ∧
      lookupODR 0b1010 = some 100 ∧
      lookupODR 0b1001 = some 50 ∧
      lookupODR 0b1000 = some 25 ∧
      lookupODR 0b0111 = some 12.5 ∧
      lookupODR 0b0110 = some 6.25 ∧
      lookupODR 0b0101 = some 3.13 ∧
      lookupODR 0b0100 = some 1.56 ∧
      lookupODR 0b0011 = some 0.78 ∧
      lookupODR 0b0010 = some 0.39 ∧
      lookupODR 0b0001 = some 0.20 ∧
      lookupODR 0b0000 = some 0.10 ∧
      lookupODR 16 = none ∧
      get_ODR 0b10101110 = lookupODR (0b10101110 &&& 0b00001111)) :=
  ⟨by decide, get_ODR_table 0b10101110 16 (by decide)⟩

/-- Embeds the bit-mask constants of ADXL375_driver.py used by the transport
command framing. -/
def READ_MASK : Nat := 0b10000000

/-- Embeds `WRITE_MASK = 0b00000000` of ADXL375_driver.py. -/
def WRITE_MASK : Nat := 0b00000000

/-- Embeds `READ_2_BYTES_MASK = 0b01000000` of ADXL375_driver.py. -/
def READ_2_BYTES_MASK : Nat := 0b01000000

/-- Embeds the register address constant `DATAX0 = 0x32` of
ADXL375_driver.py. -/
def DATAX0 : Nat := 0x32

/-- Embeds the command byte sent by `mem_read`:
`buf[0] = mem_addr | READ_MASK`. -/
def mem_read_cmd (mem_addr : Nat) : Nat :=
  mem_addr ||| READ_MASK

/-- Embeds the command byte sent by `mem_read_2bytes`:
`buf_2[0] = mem_addr | READ_MASK | READ_2_BYTES_MASK`. -/
def mem_read_2bytes_cmd (mem_addr : Nat) : Nat :=
  mem_addr ||| READ_MASK ||| READ_2_BYTES_MASK

/-- Embeds the command byte sent by `mem_write`: `buf[0] = mem_addr`, the
bare address, so the direction bit stays clear. -/
def mem_write_cmd (mem_addr : Nat) : Nat :=
  mem_addr

/-- Embeds the first byte of the `CMD_RD` burst-read buffer of main.py:
`bytearray((0b11110010, 0, 0, 0, 0, 0, 0))`. -/
def CMD_RD_byte0 : Nat := 0b11110010

/-- The direction bit of any register address in the device's map (all at
most 0x39 < 0x40) is clear. -/
lemma addr_and_128_eq_zero : ∀ a : Nat, a < 64 → a &&& 128 = 0 := by decide

/-- C7: single-byte reads send `addr | 0x80`, burst reads send
`addr | 0x80 | 0x40`, writes send the bare address (`addr | 0x00`, direction
bit clear), and the acquisition loop's burst-read command for the data
registers equals `0x32 | 0x80 | 0x40 = 0b11110010`. -/
theorem cmd_byte_encoding (addr : Nat) (h : addr ≤ 0x39) :
    mem_read_cmd addr = addr ||| 0x80 ∧
    mem_read_2bytes_cmd addr = addr ||| 0x80 ||| 0x40 ∧
    mem_write_cmd addr = addr ||| 0x00 ∧
    mem_write_cmd addr &&& 0x80 = 0 ∧
    mem_read_2bytes_cmd DATAX0 = CMD_RD_byte0 := by
  refine ⟨rfl, rfl, by simp [mem_write_cmd], ?_, by decide⟩
  exact addr_and_128_eq_zero addr (by omega)

/-- Closed witness for C7 at the data-register base address 0x32. -/
theorem cmd_byte_encoding_witness :
    ((0x32 : Nat) ≤ 0x39) ∧
    (mem_read_cmd 0x32 = 0x32 ||| 0x80 ∧
      mem_read_2bytes_cmd 0x32 = 0x32 ||| 0x80 ||| 0x40 ∧
      mem_write_cmd 0x32 = 0x32 ||| 0x00 ∧
      mem_write_cmd 0x32 &&& 0x80 = 0 ∧
      mem_read_2bytes_cmd DATAX0 = CMD_RD_byte0) :=
  ⟨by decide, cmd_byte_encoding 0x32 (by decide)⟩

/-- Embeds the BW_RATE bit constant `LOW_POWER = 0b00010000`. -/
def LOW_POWER : Nat := 0b00010000

/-- Embeds the POWER_CTL bit constant `Measure = 0b00001000`. -/
def Measure : Nat := 0b00001000

/-- Embeds the DATA_FORMAT bit constant `SELF_TEST = 0b10000000`. -/
def SELF_TEST : Nat := 0b10000000

/-- Embeds the DATA_FORMAT bit constant `SPI = 0b01000000`. -/
def SPI : Nat := 0b01000000

/-- Embeds the DATA_FORMAT bit constant `INT_INVERT = 0b00100000`. -/
def INT_INVERT : Nat := 0b00100000

/-- Embeds the DATA_FORMAT bit constant `Justify = 0b00000100`. -/
def Justify : Nat := 0b00000100

/-- Embeds the FIFO_CTL bit constant `Trigger = 0b00100000`. -/
def Trigger : Nat := 0b00100000

/-- Embeds `low_power_mode` (ADXL375_driver.py) as its effect on the BW_RATE
register byte: `data = reg_value | LOW_POWER`. -/
def low_power_mode (reg : Nat) : Nat := reg ||| LOW_POWER

/-- Embeds `normal_power_mode`: `data = reg_value & ~LOW_POWER`; on a
byte-valued register Python's `& ~mask` equals masking with the 8-bit
complement `255 ^^^ mask`. -/
def normal_power_mode (reg : Nat) : Nat := reg &&& (255 ^^^ LOW_POWER)

/-- Embeds `measure`: `data = reg_value | Measure` on POWER_CTL. -/
def measure_mode (reg : Nat) : Nat := reg ||| Measure

/-- Embeds `standby`: `temp_data = reg_value & ~Measure` on POWER_CTL. -/
def standby (reg : Nat) : Nat := reg &&& (255 ^^^ Measure)

/-- Embeds `int_enable`: `data = reg_value | int_mask` on INT_ENABLE. -/
def int_enable (reg int_mask : Nat) : Nat := reg ||| int_mask

/-- Embeds `int_disable`: `data = reg_value & ~int_mask` on INT_ENABLE. -/
def int_disable (reg int_mask : Nat) : Nat := reg &&& (255 ^^^ int_mask)

/-- Embeds `begin_self_test`: `data = reg_value | SELF_TEST` on DATA_FORMAT. -/
def begin_self_test (reg : Nat) : Nat := reg ||| SELF_TEST

/-- Embeds `end_self_test`: `data = reg_value & ~SELF_TEST` on DATA_FORMAT. -/
def end_self_test (reg : Nat) : Nat := reg &&& (255 ^^^ SELF_TEST)

/-- Embeds `spi_3_wire`: `data = reg_value | SPI` on DATA_FORMAT. -/
def spi_3_wire (reg : Nat) : Nat := reg ||| SPI

/-- Embeds `spi_4_wire`: `data = reg_value & ~SPI` on DATA_FORMAT. -/
def spi_4_wire (reg : Nat) : Nat := reg &&& (255 ^^^ SPI)

/-- Embeds `interrupt_active_low`: `data = reg_value | INT_INVERT`. -/
def interrupt_active_low (reg : Nat) : Nat := reg ||| INT_INVERT

/-- Embeds `interrupt_active_high`: `data = reg_value & ~INT_INVERT`. -/
def interrupt_active_high (reg : Nat) : Nat := reg &&& (255 ^^^ INT_INVERT)

/-- Embeds `left_justify`: `data = reg_value | Justify` on DATA_FORMAT. -/
def left_justify (reg : Nat) : Nat := reg ||| Justify

/-- Embeds `right_justify`: `data = reg_value & ~Justify` on DATA_FORMAT. -/
def right_justify (reg : Nat) : Nat := reg &&& (255 ^^^ Justify)

/-- Embeds `trigger_int2`: `data = reg_value | Trigger` on FIFO_CTL. -/
def trigger_int2 (reg : Nat) : Nat := reg ||| Trigger

/-- Embeds `trigger_int1`: `data = reg_value & ~Trigger` on FIFO_CTL. -/
def trigger_int1 (reg : Nat) : Nat := reg &&& (255 ^^^ Trigger)

/-- Bits above position 7 of a byte-valued quantity are clear. -/
lemma byte_testBit_high (n i : Nat) (hn : n < 256) (hi : 8 ≤ i) :
    n.testBit i = false :=
  Nat.testBit_lt_two_pow
    (lt_of_lt_of_le hn (le_trans (by norm_num) (Nat.pow_le_pow_right (by norm_num) hi)))

/-- OR-ing a byte mask into a byte leaves the off-mask bits unchanged. -/
lemma or_and_not (reg m : Nat) (hreg : reg < 256) (hm : m < 256) :
    (reg ||| m) &&& (255 ^^^ m) = reg &&& (255 ^^^ m) := by
  apply Nat.eq_of_testBit_eq
  intro i
  by_cases h8 : i < 8
  · have h255 : (255 : Nat).testBit i = true := by interval_cases i <;> decide
    simp only [Nat.testBit_and, Nat.testBit_or, Nat.testBit_xor, h255]
    cases m.testBit i <;> cases reg.testBit i <;> rfl
  · have hrm : reg.testBit i = false := byte_testBit_high reg i hreg (by omega)
    have hmm : m.testBit i = false := byte_testBit_high m i hm (by omega)
    simp [Nat.testBit_and, Nat.testBit_or, hrm, hmm]

/-- AND-ing with an 8-bit complement mask is idempotent on off-mask bits. -/
lemma and_not_idem (reg m : Nat) :
    (reg &&& (255 ^^^ m)) &&& (255 ^^^ m) = reg &&& (255 ^^^ m) := by
  rw [Nat.and_assoc]
  apply Nat.eq_of_testBit_eq
  intro i
  simp only [Nat.testBit_and]
  cases reg.testBit i <;> cases (255 ^^^ m).testBit i <;> rfl

/-- Setting a field and clearing it again restores a byte in which the field
bits were initially clear. -/
lemma clear_set_roundtrip (reg m : Nat) (hreg : reg < 256) (hm : m < 256)
    (h : reg &&& m = 0) : (reg ||| m) &&& (255 ^^^ m) = reg := by
  apply Nat.eq_of_testBit_eq
  intro i
  have hb : (reg.testBit i && m.testBit i) = false := by
    rw [← Nat.testBit_and, h]
    exact Nat.zero_testBit i
  by_cases h8 : i < 8
  · have h255 : (255 : Nat).testBit i = true := by interval_cases i <;> decide
    simp only [Nat.testBit_and, Nat.testBit_or, Nat.testBit_xor, h255]
    cases hmi : m.testBit i <;> cases hri : reg.testBit i <;> simp_all
  · have hrm : reg.testBit i = false := byte_testBit_high reg i hreg (by omega)
    have hmm : m.testBit i = false := byte_testBit_high m i hm (by omega)
    simp [Nat.testBit_and, Nat.testBit_or, hrm, hmm]

/-- C4 counterexample: toggling the LOW_POWER field on then off does not
return BW_RATE to its original byte value when the bit was initially set
(initial byte 0b00010000 ends as 0b00000000). -/
theorem rmw_toggle_counterexample :
    ¬ (normal_power_mode (low_power_mode 0b00010000) = 0b00010000) := by
  decide

/-- C4 (amended): every single-field setter changes only the target bit(s)
of its register, and toggling a field on then off returns the register to
its original byte value whenever the field bit(s) were initially clear. -/
theorem rmw_isolation (reg m : Nat) (hreg : reg < 256) (hm : m < 256) :
    (low_power_mode reg &&& (255 ^^^ LOW_POWER) = reg &&& (255 ^^^ LOW_POWER)) ∧
    (normal_power_mode reg &&& (255 ^^^ LOW_POWER) = reg &&& (255 ^^^ LOW_POWER)) ∧
    (int_enable reg m &&& (255 ^^^ m) = reg &&& (255 ^^^ m)) ∧
    (int_disable reg m &&& (255 ^^^ m) = reg &&& (255 ^^^ m)) ∧
    (begin_self_test reg &&& (255 ^^^ SELF_TEST) = reg &&& (255 ^^^ SELF_TEST)) ∧
    (end_self_test reg &&& (255 ^^^ SELF_TEST) = reg &&& (255 ^^^ SELF_TEST)) ∧
    (spi_3_wire reg &&& (255 ^^^ SPI) = reg &&& (255 ^^^ SPI)) ∧
    (spi_4_wire reg &&& (255 ^^^ SPI) = reg &&& (255 ^^^ SPI)) ∧
    (interrupt_active_low reg &&& (255 ^^^ INT_INVERT) = reg &&& (255 ^^^ INT_INVERT)) ∧
    (interrupt_active_high reg &&& (255 ^^^ INT_INVERT) = reg &&& (255 ^^^ INT_INVERT)) ∧
    (left_justify reg &&& (255 ^^^ Justify) = reg &&& (255 ^^^ Justify)) ∧
    (right_justify reg &&& (255 ^^^ Justify) = reg &&& (255 ^^^ Justify)) ∧
    (measure_mode reg &&& (255 ^^^ Measure) = reg &&& (255 ^^^ Measure)) ∧
    (standby reg &&& (255 ^^^ Measure) = reg &&& (255 ^^^ Measure)) ∧
    (trigger_int2 reg &&& (255 ^^^ Trigger) = reg &&& (255 ^^^ Trigger)) ∧
    (trigger_int1 reg &&& (255 ^^^ Trigger) = reg &&& (255 ^^^ Trigger)) ∧
    (reg &&& LOW_POWER = 0 → normal_power_mode (low_power_mode reg) = reg) ∧
    (reg &&& m = 0 → int_disable (int_enable reg m) m = reg) ∧
    (reg &&& SELF_TEST = 0 → end_self_test (begin_self_test reg) = reg) ∧
    (reg &&& SPI = 0 → spi_4_wire (spi_3_wire reg) = reg) ∧
    (reg &&& INT_INVERT = 0 → interrupt_active_high (interrupt_active_low reg) = reg) ∧
    (reg &&& Justify = 0 → right_justify (left_justify reg) = reg) ∧
    (reg &&& Measure = 0 → standby (measure_mode reg) = reg) ∧
    (reg &&& Trigger = 0 → trigger_int1 (trigger_int2 reg) = reg) := by
  simp only [low_power_mode, normal_power_mode, int_enable, int_disable,
    begin_self_test, end_self_test, spi_3_wire, spi_4_wire,
    interrupt_active_low, interrupt_active_high, left_justify, right_justify,
    measure_mode, standby, trigger_int2, trigger_int1]
  refine ⟨or_and_not reg LOW_POWER hreg (by decide), and_not_idem reg LOW_POWER,
    or_and_not reg m hreg hm, and_not_idem reg m,
    or_and_not reg SELF_TEST hreg (by decide), and_not_idem reg SELF_TEST,
    or_and_not reg SPI hreg (by decide), and_not_idem reg SPI,
    or_and_not reg INT_INVERT hreg (by decide), and_not_idem reg INT_INVERT,
    or_and_not reg Justify hreg (by decide), and_not_idem reg Justify,
    or_and_not reg Measure hreg (by decide), and_not_idem reg Measure,
    or_and_not reg Trigger hreg (by decide), and_not_idem reg Trigger,
    fun h => clear_set_roundtrip reg LOW_POWER hreg (by decide) h,
    fun h => clear_set_roundtrip reg m hreg hm h,
    fun h => clear_set_roundtrip reg SELF_TEST hreg (by decide) h,
    fun h => clear_set_roundtrip reg SPI hreg (by decide) h,
    fun h => clear_set_roundtrip reg INT_INVERT hreg (by decide) h,
    fun h => clear_set_roundtrip reg Justify hreg (by decide) h,
    fun h => clear_set_roundtrip reg Measure hreg (by decide) h,
    fun h => clear_set_roundtrip reg Trigger hreg (by decide) h⟩

/-- Closed witness for the amended C4 at register byte 0b01000101 and
interrupt mask 0b00000010 (the watermark bit). -/
theorem rmw_isolation_witness :
    ((0b01000101 : Nat) < 256) ∧ ((0b00000010 : Nat) < 256) ∧
    ((low_power_mode 0b01000101 &&& (255 ^^^ LOW_POWER) = 0b01000101 &&& (255 ^^^ LOW_POWER)) ∧
      (normal_power_mode 0b01000101 &&& (255 ^^^ LOW_POWER) = 0b01000101 &&& (255 ^^^ LOW_POWER)) ∧
      (int_enable 0b01000101 0b00000010 &&& (255 ^^^ 0b00000010) = 0b01000101 &&& (255 ^^^ 0b00000010)) ∧
      (int_disable 0b01000101 0b00000010 &&& (255 ^^^ 0b00000010) = 0b01000101 &&& (255 ^^^ 0b00000010)) ∧
      (begin_self_test 0b01000101 &&& (255 ^^^ SELF_TEST) = 0b01000101 &&& (255 ^^^ SELF_TEST)) ∧
      (end_self_test 0b01000101 &&& (255 ^^^ SELF_TEST) = 0b01000101 &&& (255 ^^^ SELF_TEST)) ∧
      (spi_3_wire 0b01000101 &&& (255 ^^^ SPI) = 0b01000101 &&& (255 ^^^ SPI)) ∧
      (spi_4_wire 0b01000101 &&& (255 ^^^ SPI) = 0b01000101 &&& (255 ^^^ SPI)) ∧
      (interrupt_active_low 0b01000101 &&& (255 ^^^ INT_INVERT) = 0b01000101 &&& (255 ^^^ INT_INVERT)) ∧
      (interrupt_active_high 0b01000101 &&& (255 ^^^ INT_INVERT) = 0b01000101 &&& (255 ^^^ INT_INVERT)) ∧
      (left_justify 0b01000101 &&& (255 ^^^ Justify) = 0b01000101 &&& (255 ^^^ Justify)) ∧
      (right_justify 0b01000101 &&& (255 ^^^ Justify) = 0b01000101 &&& (255 ^^^ Justify)) ∧
      (measure_mode 0b01000101 &&& (255 ^^^ Measure) = 0b01000101 &&& (255 ^^^ Measure)) ∧
      (standby 0b01000101 &&& (255 ^^^ Measure) = 0b01000101 &&& (255 ^^^ Measure)) ∧
      (trigger_int2 0b01000101 &&& (255 ^^^ Trigger) = 0b01000101 &&& (255 ^^^ Trigger)) ∧
      (trigger_int1 0b01000101 &&& (255 ^^^ Trigger) = 0b01000101 &&& (255 ^^^ Trigger)) ∧
      ((0b01000101 : Nat) &&& LOW_POWER = 0 → normal_power_mode (low_power_mode 0b01000101) = 0b01000101) ∧
      ((0b01000101 : Nat) &&& 0b00000010 = 0 → int_disable (int_enable 0b01000101 0b00000010) 0b00000010 = 0b01000101) ∧
      ((0b01000101 : Nat) &&& SELF_TEST = 0 → end_self_test (begin_self_test 0b01000101) = 0b01000101) ∧
      ((0b01000101 : Nat) &&& SPI = 0 → spi_4_wire (spi_3_wire 0b01000101) = 0b01000101) ∧
      ((0b01000101 : Nat) &&& INT_INVERT = 0 → interrupt_active_high (interrupt_active_low 0b01000101) = 0b01000101) ∧
      ((0b01000101 : Nat) &&& Justify = 0 → right_justify (left_justify 0b01000101) = 0b01000101) ∧
      ((0b01000101 : Nat) &&& Measure = 0 → standby (measure_mode 0b01000101) = 0b01000101) ∧
      ((0b01000101 : Nat) &&& Trigger = 0 → trigger_int1 (trigger_int2 0b01000101) = 0b01000101)) :=
  ⟨by decide, by decide, rmw_isolation 0b01000101 0b00000010 (by decide) (by decide)⟩

/-- Embeds `set_samples(num)` (ADXL375_driver.py) as its effect on the
FIFO_CTL register byte: clamp `num` to 32 from above and 0 from below, clear
the five least significant bits of the register
(`reg_value & 0b11100000`) and add the clamped count. -/
def set_samples (num : Int) (reg : Nat) : Nat :=
  let num1 : Int := if num > 32 then 32 else num
  let num2 : Int := if num1 < 0 then 0 else num1
  (reg &&& 0b11100000) + num2.toNat

set_option maxRecDepth 8192 in
/-- The top three bits of a byte select the multiple of 32 below it. -/
lemma and_224_eq : ∀ x : Nat, x < 256 → x &&& 224 = 32 * (x / 32) := by
  decide

/-- Closed form of `set_samples`: the clamp computes `max 0 (min 32 num)`. -/
lemma set_samples_eq (num : Int) (reg : Nat) :
    set_samples num reg = (reg &&& 0b11100000) + (max 0 (min 32 num)).toNat := by
  simp only [set_samples]
  by_cases h1 : 32 < num
  · rw [if_pos h1, if_neg (by omega)]
    congr 1
    omega
  · rw [if_neg h1]
    by_cases h2 : num < 0
    · rw [if_pos h2]
      congr 1
      omega
    · rw [if_neg h2]
      congr 1
      omega

/-- C5 counterexample: with FIFO_CTL initially 0 and the out-of-range count
50 (clamped to 32), the written value 0b00100000 differs from the original
in the upper 3 bits, so they are not preserved. -/
theorem set_samples_counterexample :
    ¬ (set_samples 50 0 &&& 0b11100000 = 0 &&& 0b11100000) := by
  decide

/-- C5 (amended): out-of-range counts are silently clamped — negative counts
behave as 0 and counts above 32 behave as 32, in particular -5 as 0 and 50 as
32 — and the upper 3 bits of FIFO_CTL are preserved whenever the clamped
count is at most 31 (a count of 32 carries into bit 5). -/
theorem set_samples_clamp (reg : Nat) (num : Int) (hreg : reg < 256) :
    (num < 0 → set_samples num reg = set_samples 0 reg) ∧
    (32 < num → set_samples num reg = set_samples 32 reg) ∧
    set_samples (-5) reg = set_samples 0 reg ∧
    set_samples 50 reg = set_samples 32 reg ∧
    (0 ≤ num → num ≤ 31 →
      set_samples num reg &&& 0b11100000 = reg &&& 0b11100000) := by
  refine ⟨?_, ?_, ?_, ?_, ?_⟩
  · intro h
    rw [set_samples_eq, set_samples_eq]
    omega
  · intro h
    rw [set_samples_eq, set_samples_eq]
    omega
  · rw [set_samples_eq, set_samples_eq]
    omega
  · rw [set_samples_eq, set_samples_eq]
    omega
  · intro h0 h31
    rw [set_samples_eq]
    have e1 : reg &&& 224 = 32 * (reg / 32) := and_224_eq reg hreg
    have h2 : (reg &&& 0b11100000) + (max 0 (min 32 num)).toNat < 256 := by
      omega
    rw [and_224_eq _ h2, e1]
    omega

/-- Closed witness for the amended C5 at FIFO_CTL byte 0b10100111 and the
in-range count 20 used by main.py. -/
theorem set_samples_clamp_witness :
    ((0b10100111 : Nat) < 256) ∧
    (((20 : Int) < 0 → set_samples 20 0b10100111 = set_samples 0 0b10100111) ∧
      ((32 : Int) < 20 → set_samples 20 0b10100111 = set_samples 32 0b10100111) ∧
      set_samples (-5) 0b10100111 = set_samples 0 0b10100111 ∧
      set_samples 50 0b10100111 = set_samples 32 0b10100111 ∧
      ((0 : Int) ≤ 20 → (20 : Int) ≤ 31 →
        set_samples 20 0b10100111 &&& 0b11100000 = 0b10100111 &&& 0b11100000)) :=
  ⟨by decide, set_samples_clamp 0b10100111 20 (by decide)⟩

/-- Embeds Python's `round(x, 6)` as used for `deltaTime` in `decode_data`
(helperFunctions.py): round to 6 decimal places (ties at half are
immaterial for the bound proved below). -/
def round6 (q : ℚ) : ℚ :=
  ((round (q * 1000000) : ℤ) : ℚ) / 1000000

/-- One output line of the decoded text file: the header line or a data row
carrying the time column and the six axis columns. -/
inductive OutLine where
  | header : OutLine
  | row : ℚ → List ℚ → OutLine
deriving DecidableEq

/-- Embeds the per-record body of the `decode_data` loop: from a 14-byte
record, bytes 0 and 7 are skipped and the six axis values are decoded from
the little-endian byte pairs at (1,2), (3,4), (5,6) for device 1 and (8,9),
(10,11), (12,13) for device 2. -/
def decodeRecord (line : List Nat) : List ℚ :=
  [ axis_accel (line.getD 1 0) (line.getD 2 0),
    axis_accel (line.getD 3 0) (line.getD 4 0),
    axis_accel (line.getD 5 0) (line.getD 6 0),
    axis_accel (line.getD 8 0) (line.getD 9 0),
    axis_accel (line.getD 10 0) (line.getD 11 0),
    axis_accel (line.getD 12 0) (line.getD 13 0) ]

/-- Embeds the `while True` loop of `decode_data`: one data row per 14-byte
record, with the running `time` starting at 0 and advanced by `deltaTime`
after each row. -/
def decodeRows (deltaTime : ℚ) (time : ℚ) : List (List Nat) → List OutLine
  | [] => []
  | line :: rest =>
      OutLine.row time (decodeRecord line) :: decodeRows deltaTime (time + deltaTime) rest

/-- Embeds `decode_data(file_count, adxl375)` (helperFunctions.py) on a
capture already split into 14-byte records: write the header line, set
`deltaTime = round(1 / get_ODR(...), 6)`, then one data row per record. -/
def decode_data (odr : ℚ) (recs : List (List Nat)) : List OutLine :=
  OutLine.header :: decodeRows (round6 (1 / odr)) 0 recs

/-- The decode loop emits exactly one row per record. -/
lemma decodeRows_length (deltaTime time : ℚ) (recs : List (List Nat)) :
    (decodeRows deltaTime time recs).length = recs.length := by
  induction recs generalizing time with
  | nil => rfl
  | cons r rest ih => simp [decodeRows, ih]

/-- Row i of the decode loop carries time `time + i * deltaTime` and the
decoded record i. -/
lemma decodeRows_getD (deltaTime time : ℚ) (recs : List (List Nat)) (i : Nat)
    (hi : i < recs.length) :
    (decodeRows deltaTime time recs).getD i OutLine.header =
      OutLine.row (time + (i : ℚ) * deltaTime) (decodeRecord (recs.getD i [])) := by
  induction recs generalizing time i with
  | nil => simp at hi
  | cons r rest ih =>
    cases i with
    | zero => simp [decodeRows]
    | succ n =>
      simp only [decodeRows, List.getD_cons_succ]
      rw [ih (time + deltaTime) n (by simpa using hi)]
      congr 1
      push_cast
      ring

/-- Rounding to 6 decimal places moves a rational by at most half of 10^-6. -/
lemma round6_abs (q : ℚ) : |round6 q - q| ≤ 1 / 2000000 := by
  rw [round6]
  have h2 : |q * 1000000 - ((round (q * 1000000) : ℤ) : ℚ)| ≤ 1 / 2 :=
    abs_sub_round (q * 1000000)
  rw [abs_sub_comm] at h2
  have e : ((round (q * 1000000) : ℤ) : ℚ) / 1000000 - q =
      (((round (q * 1000000) : ℤ) : ℚ) - q * 1000000) / 1000000 := by
    ring
  rw [e, abs_div, abs_of_pos (by norm_num : (0 : ℚ) < 1000000)]
  linarith

/-- C3: on a capture of exactly k 14-byte records, `decode_data` emits one
header line followed by exactly k data rows; data row i carries time
`i * round6(1/ODR)`, which is within `i` half-microseconds of `i / ODR`, and
the six axis columns of `decodeRecord` (little-endian words at byte pairs
(1,2),(3,4),(5,6),(8,9),(10,11),(12,13), bytes 0 and 7 skipped, each
converted by `twos_comp` times 0.0488). -/
theorem decode_data_rows (odr : ℚ) (recs : List (List Nat)) (i : Nat)
    (hi : i < recs.length) :
    (decode_data odr recs).length = recs.length + 1 ∧
    (decode_data odr recs).getD 0 OutLine.header = OutLine.header ∧
    (decode_data odr recs).getD (i + 1) OutLine.header =
      OutLine.row ((i : ℚ) * round6 (1 / odr)) (decodeRecord (recs.getD i [])) ∧
    |(i : ℚ) * round6 (1 / odr) - (i : ℚ) * (1 / odr)| ≤ (i : ℚ) * (1 / 2000000) := by
  refine ⟨?_, rfl, ?_, ?_⟩
  · simp [decode_data, decodeRows_length]
  · simp only [decode_data, List.getD_cons_succ]
    rw [decodeRows_getD _ _ _ i hi]
    rw [zero_add]
  · have e : (i : ℚ) * round6 (1 / odr) - (i : ℚ) * (1 / odr) =
        (i : ℚ) * (round6 (1 / odr) - 1 / odr) := by
      ring
    rw [e, abs_mul, abs_of_nonneg (by positivity : (0 : ℚ) ≤ (i : ℚ))]
    exact mul_le_mul_of_nonneg_left (round6_abs _) (by positivity)

/-- Fourteen-byte record used as a concrete decode input. -/
def sample_record : List Nat :=
  [0xF2, 0x01, 0x00, 0xFF, 0xFF, 0x00, 0x00, 0xF2, 0x02, 0x00, 0x00, 0x00, 0xFE, 0xFF]

/-- Closed witness for C3 on a one-record capture at 1600 Hz. -/
theorem decode_data_rows_witness :
    (0 < [sample_record].length) ∧
    ((decode_data 1600 [sample_record]).length = [sample_record].length + 1 ∧
      (decode_data 1600 [sample_record]).getD 0 OutLine.header = OutLine.header ∧
      (decode_data 1600 [sample_record]).getD (0 + 1) OutLine.header =
        OutLine.row (((0 : Nat) : ℚ) * round6 (1 / 1600))
          (decodeRecord ([sample_record].getD 0 [])) ∧
      |((0 : Nat) : ℚ) * round6 (1 / 1600) - ((0 : Nat) : ℚ) * (1 / 1600)| ≤
        ((0 : Nat) : ℚ) * (1 / 2000000)) :=
  ⟨by decide, decode_data_rows 1600 [sample_record] 0 (by decide)⟩

/-- Embeds `clear_accel_buf(adxl375)` (helperFunctions.py): loop while
`get_FIFO_STATUS() & 0b00111111` is nonzero, reading one sample
(`get_x_acceleration()`) and incrementing `count` each pass.  The FIFO fill
count sits in the low 6 bits of FIFO_STATUS and each data read pops one FIFO
entry (hardware FIFO semantics), so the loop is recursion on the fill count.
Returns (count of values read, final fill count). -/
def clear_accel_buf : Nat → Nat × Nat
  | 0 => (0, 0)
  | n + 1 =>
      if (n + 1) &&& 0b00111111 ≠ 0 then
        ((clear_accel_buf n).1 + 1, (clear_accel_buf n).2)
      else
        (0, n + 1)

/-- A FIFO fill count (at most 63) survives the 6-bit status mask. -/
lemma and_63_self : ∀ n : Nat, n < 64 → n &&& 63 = n := by
  decide

/-- Draining from any fill count at most 63 reads exactly that many values
and ends with an empty FIFO. -/
lemma clear_accel_buf_eq (n : Nat) (h : n ≤ 63) : clear_accel_buf n = (n, 0) := by
  induction n with
  | zero => rfl
  | succ k ih =>
    rw [clear_accel_buf, if_pos (by rw [and_63_self (k + 1) (by omega)]; omega),
      ih (by omega)]

/-- State touched by the arming section of the main loop: the in-memory file
counter, the lines of count.txt, each device's FIFO fill count, each
device's standby flag, and the data files opened so far. -/
structure DAQState where
  file_count : Nat
  countFile : List Nat
  fifo1 : Nat
  fifo2 : Nat
  standby1 : Bool
  standby2 : Bool
  openFiles : List Nat
deriving DecidableEq

/-- Embeds the BEGIN RECORDING section of main.py (after the press edge,
before any sample is recorded): `file_count += 1`; append it to count.txt;
`ADXL375_1.standby(); clear_accel_buf(ADXL375_1); ADXL375_2.standby()`
(device 2 is put in standby but its FIFO is not drained); then open
`data<file_count>.bin`. -/
def armingStep (s : DAQState) : DAQState :=
  { file_count := s.file_count + 1,
    countFile := s.countFile ++ [s.file_count + 1],
    fifo1 := (clear_accel_buf s.fifo1).2,
    fifo2 := s.fifo2,
    standby1 := true,
    standby2 := true,
    openFiles := s.openFiles ++ [s.file_count + 1] }

/-- C8 counterexample: arming from a state in which device 2's FIFO holds 5
stale samples leaves those 5 samples in place — the code never drains the
second accelerometer's FIFO, so "clears both accelerometers' FIFOs" fails. -/
theorem armingStep_counterexample :
    ¬ ((armingStep ⟨0, [0], 3, 5, false, false, []⟩).fifo2 = 0) := by
  decide

/-- C8 (amended): on every button-press edge out of Idle, before any sample
is recorded, the loop increments the file index and persists it to the
counter file, drains device 1's FIFO (in standby) until its fill count reads
zero, places device 2 in standby without draining it (its FIFO fill count is
unchanged), and opens exactly one new output file for the session. -/
theorem armingStep_spec (s : DAQState) (h1 : s.fifo1 ≤ 32) :
    (armingStep s).file_count = s.file_count + 1 ∧
    (armingStep s).countFile = s.countFile ++ [s.file_count + 1] ∧
    (armingStep s).fifo1 = 0 ∧
    (armingStep s).fifo2 = s.fifo2 ∧
    (armingStep s).standby1 = true ∧
    (armingStep s).standby2 = true ∧
    (armingStep s).openFiles = s.openFiles ++ [s.file_count + 1] := by
  refine ⟨rfl, rfl, ?_, rfl, rfl, rfl, rfl⟩
  show (clear_accel_buf s.fifo1).2 = 0
  rw [clear_accel_buf_eq s.fifo1 (by omega)]

/-- Closed witness for the amended C8 from a state with a full watermark
batch of 20 samples pending in device 1's FIFO. -/
theorem armingStep_spec_witness :
    ((DAQState.mk 7 [0, 7] 20 0 true true [7]).fifo1 ≤ 32) ∧
    ((armingStep (DAQState.mk 7 [0, 7] 20 0 true true [7])).file_count =
        (DAQState.mk 7 [0, 7] 20 0 true true [7]).file_count + 1 ∧
      (armingStep (DAQState.mk 7 [0, 7] 20 0 true true [7])).countFile =
        (DAQState.mk 7 [0, 7] 20 0 true true [7]).countFile ++
          [(DAQState.mk 7 [0, 7] 20 0 true true [7]).file_count + 1] ∧
      (armingStep (DAQState.mk 7 [0, 7] 20 0 true true [7])).fifo1 = 0 ∧
      (armingStep (DAQState.mk 7 [0, 7] 20 0 true true [7])).fifo2 =
        (DAQState.mk 7 [0, 7] 20 0 true true [7]).fifo2 ∧
      (armingStep (DAQState.mk 7 [0, 7] 20 0 true true [7])).standby1 = true ∧
      (armingStep (DAQState.mk 7 [0, 7] 20 0 true true [7])).standby2 = true ∧
      (armingStep (DAQState.mk 7 [0, 7] 20 0 true true [7])).openFiles =
        (DAQState.mk 7 [0, 7] 20 0 true true [7]).openFiles ++
          [(DAQState.mk 7 [0, 7] 20 0 true true [7]).file_count + 1]) :=
  ⟨by decide, armingStep_spec (DAQState.mk 7 [0, 7] 20 0 true true [7]) (by decide)⟩

/-- Chip-select line level (the constructor sets the pin to idle high). -/
inductive CSLevel where
  | low
  | high
deriving DecidableEq

/-- Pin and bus events a transport transaction performs, in order. -/
inductive BusEv where
  | cs_low
  | spi_exchange
  | cs_high
deriving DecidableEq

/-- Chip-select level after a sequence of events, starting from idle high. -/
def csAfter (evs : List BusEv) : CSLevel :=
  evs.foldl
    (fun c e =>
      match e with
      | BusEv.cs_low => CSLevel.low
      | BusEv.cs_high => CSLevel.high
      | BusEv.spi_exchange => c)
    CSLevel.high

/-- Embeds the statement sequence of `mem_read` (ADXL375_driver.py):
`CS_pin.low(); spi.send_recv(buf, buf); CS_pin.high()` with no try/finally —
when the exchange raises a transport fault, the exception propagates and
`CS_pin.high()` never executes, so the trace ends after `cs_low`. -/
def mem_read_trace (fault : Bool) : List BusEv :=
  if fault then [BusEv.cs_low]
  else [BusEv.cs_low, BusEv.spi_exchange, BusEv.cs_high]

/-- Embeds the statement sequence of `mem_read_2bytes`, bracketed exactly
like `mem_read`. -/
def mem_read_2bytes_trace (fault : Bool) : List BusEv :=
  if fault then [BusEv.cs_low]
  else [BusEv.cs_low, BusEv.spi_exchange, BusEv.cs_high]

/-- Embeds the statement sequence of `mem_write`
(`CS_pin.low(); spi.send(buf); CS_pin.high()`), bracketed the same way. -/
def mem_write_trace (fault : Bool) : List BusEv :=
  if fault then [BusEv.cs_low]
  else [BusEv.cs_low, BusEv.spi_exchange, BusEv.cs_high]

/-- Embeds one drain-loop transaction of main.py
(`SPI1_CS1.low(); spi_1.send_recv(CMD_RD, buf1_7); SPI1_CS1.high()`). -/
def drain_read_trace (fault : Bool) : List BusEv :=
  if fault then [BusEv.cs_low]
  else [BusEv.cs_low, BusEv.spi_exchange, BusEv.cs_high]

/-- C9 evaluation: on the fault-free path every transport transaction ends
with chip-select released (high), but on the fault path — the SPI exchange
raising — every transaction ends with chip-select still asserted (low): the
source has no try/finally, so release is not unconditional. -/
theorem cs_release_on_fault :
    csAfter (mem_read_trace false) = CSLevel.high ∧
    csAfter (mem_read_2bytes_trace false) = CSLevel.high ∧
    csAfter (mem_write_trace false) = CSLevel.high ∧
    csAfter (drain_read_trace false) = CSLevel.high ∧
    csAfter (mem_read_trace true) = CSLevel.low ∧
    csAfter (mem_read_2bytes_trace true) = CSLevel.low ∧
    csAfter (mem_write_trace true) = CSLevel.low ∧
    csAfter (drain_read_trace true) = CSLevel.low := by
  decide

/-- Names looked up on the ADXL375 class by the register accessors,
including the three misspelled names referenced by the offset setters. -/
inductive AttrName where
  | DEVID
  | THRESH_SHOCK
  | OFSX
  | OFSY
  | OFSZ
  | DUR
  | Latent
  | Window
  | THRESH_ACT
  | THRESH_INACT
  | TIME_INACT
  | ACT_INACT_CTL
  | SHOCK_AXES
  | ACT_SHOCK_STATUS
  | BW_RATE
  | POWER_CTL
  | INT_ENABLE
  | INT_MAP
  | INT_SOURCE
  | DATA_FORMAT
  | DATAX0
  | DATAX1
  | DATAY0
  | DATAY1
  | DATAZ0
  | DATAZ1
  | FIFO_CTL
  | FIFO_STATUS
  | OFSXF
  | OFSXY
  | OFSXZ
deriving DecidableEq

/-- Embeds the register-map class constants of ADXL375_driver.py: each
defined class attribute maps to its register address; `none` models a name
the class never defines, whose lookup raises AttributeError in Python.  The
names OFSXF, OFSXY and OFSXZ are referenced by `set_OFSX` / `set_OFSY` /
`set_OFSZ` but appear nowhere among the class constants. -/
def classAttr : AttrName → Option Nat
  | AttrName.DEVID => some 0x00
  | AttrName.THRESH_SHOCK => some 0x1D
  | AttrName.OFSX => some 0x1E
  | AttrName.OFSY => some 0x1F
  | AttrName.OFSZ => some 0x20
  | AttrName.DUR => some 0x21
  | AttrName.Latent => some 0x22
  | AttrName.Window => some 0x23
  | AttrName.THRESH_ACT => some 0x24
  | AttrName.THRESH_INACT => some 0x25
  | AttrName.TIME_INACT => some 0x26
  | AttrName.ACT_INACT_CTL => some 0x27
  | AttrName.SHOCK_AXES => some 0x2A
  | AttrName.ACT_SHOCK_STATUS => some 0x2B
  | AttrName.BW_RATE => some 0x2C
  | AttrName.POWER_CTL => some 0x2D
  | AttrName.INT_ENABLE => some 0x2E
  | AttrName.INT_MAP => some 0x2F
  | AttrName.INT_SOURCE => some 0x30
  | AttrName.DATA_FORMAT => some 0x31
  | AttrName.DATAX0 => some 0x32
  | AttrName.DATAX1 => some 0x33
  | AttrName.DATAY0 => some 0x34
  | AttrName.DATAY1 => some 0x35
  | AttrName.DATAZ0 => some 0x36
  | AttrName.DATAZ1 => some 0x37
  | AttrName.FIFO_CTL => some 0x38
  | AttrName.FIFO_STATUS => some 0x39
  | AttrName.OFSXF => none
  | AttrName.OFSXY => none
  | AttrName.OFSXZ => none

/-- Embeds `set_OFSX(data)` (ADXL375_driver.py):
`self.mem_write(self.OFSXF, data)`.  The attribute lookup `self.OFSXF`
evaluates before `mem_write` runs, so an undefined name raises and no
register write occurs; the result is the list of (address, byte) register
writes performed, or an attribute error. -/
def set_OFSX (data : Nat) : Except Unit (List (Nat × Nat)) :=
  match classAttr AttrName.OFSXF with
  | none => Except.error ()
  | some addr => Except.ok [(addr, data)]

/-- Embeds `set_OFSY(data)`: `self.mem_write(self.OFSXY, data)`. -/
def set_OFSY (data : Nat) : Except Unit (List (Nat × Nat)) :=
  match classAttr AttrName.OFSXY with
  | none => Except.error ()
  | some addr => Except.ok [(addr, data)]

/-- Embeds `set_OFSZ(data)`: `self.mem_write(self.OFSXZ, data)`. -/
def set_OFSZ (data : Nat) : Except Unit (List (Nat × Nat)) :=
  match classAttr AttrName.OFSXZ with
  | none => Except.error ()
  | some addr => Except.ok [(addr, data)]

/-- C10: for every input byte, each offset setter raises an attribute error
(the referenced class names OFSXF / OFSXY / OFSXZ are never defined) and
performs no register write, so the offset registers 0x1E-0x20 are never
written through these setters and the device state is unchanged. -/
theorem set_OFS_attribute_error (data : Nat) :
    set_OFSX data = Except.error () ∧
    set_OFSY data = Except.error () ∧
    set_OFSZ data = Except.error () :=
  ⟨rfl, rfl, rfl⟩
